import Mathlib

/-!
# Verification of the Songs4Image extraction orchestration engine

Shallow embedding of the retry controller, rate controller, run
orchestrator and ledger logic of the repository
(production_scraper.py, spotify_scraper.py, fast_scraper.py,
lyrics_extractor.py), with theorems settling the frozen claims.

Conventions of the embedding:
- Python strings are Lean String; the substring test s1 in s2 is hasSubstr.
- A single call of the external extractor (SpotifyScraper.scrape_track)
  either returns a result dict or raises; we model the outcome stream of
  the successive attempts for one work item as a function
  Nat -> AttemptOutcome, indexed by the attempt number (starting at 1).
- time.sleep calls carry no state; the randomized sleeps are recorded as
  the (lo, hi) range handed to random.uniform, so that properties of the
  backoff and delay windows can be stated. A uniform draw from a range is
  modelled as lo + r * (hi - lo) for a randomness parameter r in [0, 1].
- Numeric quantities that are Python floats are modelled as rationals.
-/

/-- Substring containment over char lists: pat occurs somewhere in l.
Model of the Python expression pat in s for strings. -/
def hasSubstrL (l : List Char) (pat : List Char) : Bool :=
  match l with
  | [] => pat.isEmpty
  | _ :: t => pat.isPrefixOf l || hasSubstrL t pat

/-- Model of the Python membership test pat in s on strings. -/
def hasSubstr (s pat : String) : Bool :=
  hasSubstrL s.data pat.data

/-- The result dict built by SpotifyScraper.scrape_track
(spotify_scraper.py lines 175-181) and by the failure path of
scrape_track_with_retry (production_scraper.py lines 64-70). -/
structure TrackResult where
  track_id : String
  track_name : String
  spotify_url : String
  lyrics : String
  cover_image_url : String
deriving DecidableEq, Repr

/-- Outcome of one attempt of the external extractor: the Python call
self.scrape_track either returns a dict (ok) or raises an exception
(exn, carrying str(e)). -/
inductive AttemptOutcome where
  | ok (r : TrackResult)
  | exn (e : String)
deriving DecidableEq, Repr

/-- Whether an outcome is an exception. -/
def AttemptOutcome.isExn : AttemptOutcome → Bool
  | .ok _ => false
  | .exn _ => true

/-- The exception message of an outcome (empty for ok). -/
def AttemptOutcome.exnMsg : AttemptOutcome → String
  | .ok _ => ""
  | .exn e => e

/-- The retry condition tested on a returned dict at
production_scraper.py line 49: the literal "Error" occurs in the lyrics
field or in the cover_image_url field. -/
def hasErrorMarker (r : TrackResult) : Bool :=
  hasSubstr r.lyrics "Error" || hasSubstr r.cover_image_url "Error"

/-- The failure dict returned after exhausting retries with an exception
(production_scraper.py lines 64-70). -/
def failedResult (maxRetries : Nat) (track_id track_name e : String) : TrackResult :=
  { track_id := track_id
    track_name := track_name
    spotify_url := "https://open.spotify.com/track/" ++ track_id
    lyrics := "Failed after " ++ toString maxRetries ++ " attempts: " ++ e
    cover_image_url := "Failed to extract" }

/-- Entry appended to self.failed_tracks at production_scraper.py line 63:
a dict with track_id, track_name and the exception string. It carries no
attempt count. -/
structure FailedTrack where
  track_id : String
  track_name : String
  error : String
deriving DecidableEq, Repr

/-- Value of one call of ProductionSpotifyScraper.scrape_track_with_retry,
together with the observable effects of the call: the number of extractor
attempts performed, the failure records appended to self.failed_tracks,
and the (lo, hi) ranges of the backoff sleeps performed between attempts,
in order. -/
structure RetryOutcome where
  result : TrackResult
  attempts : Nat
  failedAppended : List FailedTrack
  backoffs : List (ℚ × ℚ)
deriving DecidableEq, Repr

/-- Model of ProductionSpotifyScraper.scrape_track_with_retry
(production_scraper.py lines 43-70). The outcome stream ex gives the
result of self.scrape_track at each attempt number. Branch for branch:
- an ok result that contains the "Error" marker while attempt is below
  self.max_retries sleeps uniform(5, 10) and recurses with attempt + 1;
- any other ok result is returned as is;
- an exception with attempt below self.max_retries sleeps uniform(5, 10)
  and recurses with attempt + 1;
- an exception at attempt at or above self.max_retries appends a record
  to self.failed_tracks and returns the failure dict. -/
def scrape_track_with_retry (maxRetries : Nat) (ex : Nat → AttemptOutcome)
    (track_id track_name : String) (attempt : Nat) : RetryOutcome :=
  match ex attempt with
  | .ok result =>
    if h : hasErrorMarker result = true ∧ attempt < maxRetries then
      let r := scrape_track_with_retry maxRetries ex track_id track_name (attempt + 1)
      { r with attempts := r.attempts + 1, backoffs := ((5 : ℚ), (10 : ℚ)) :: r.backoffs }
    else
      { result := result, attempts := 1, failedAppended := [], backoffs := [] }
  | .exn e =>
    if h : attempt < maxRetries then
      let r := scrape_track_with_retry maxRetries ex track_id track_name (attempt + 1)
      { r with attempts := r.attempts + 1, backoffs := ((5 : ℚ), (10 : ℚ)) :: r.backoffs }
    else
      { result := failedResult maxRetries track_id track_name e
        attempts := 1
        failedAppended := [{ track_id := track_id, track_name := track_name, error := e }]
        backoffs := [] }
termination_by maxRetries - attempt
decreasing_by all_goals omega

/-- A uniform draw from the range [lo, hi], with randomness r in [0, 1]:
the value random.uniform(lo, hi) can take is lo + r * (hi - lo). -/
def uniformDraw (lo hi r : ℚ) : ℚ :=
  lo + r * (hi - lo)

/-- Model of ProductionSpotifyScraper.adaptive_delay
(production_scraper.py lines 87-99): the active (delay_min, delay_max)
range as a function of the success rate, for the given base range.
The caller then sleeps a uniform draw from this range via random_delay
(spotify_scraper.py lines 67-69). -/
def adaptive_delay_range (success_rate base_delay_min base_delay_max : ℚ) : ℚ × ℚ :=
  if success_rate < 0.8 then
    (base_delay_min * 1.5, base_delay_max * 2)
  else if success_rate > 0.95 then
    (base_delay_min * 0.8, base_delay_max * 0.8)
  else
    (base_delay_min, base_delay_max)

/-- Division guarded against a zero denominator, recording the Python
fact that x / 0 raises ZeroDivisionError. -/
def qdivChecked (a b : ℚ) : Option ℚ :=
  if b = 0 then none else some (a / b)

/-- Model of ProductionSpotifyScraper.calculate_eta
(production_scraper.py lines 72-85). The elapsed wall clock
(datetime.now() - start_time).total_seconds() is the parameter elapsed.
Python float floor division and modulus are Int.floor based. -/
def calculate_eta (completed total : Nat) (elapsed : ℚ) : Option String :=
  if completed = 0 then
    some "Unknown"
  else
    match qdivChecked (completed : ℚ) elapsed with
    | none => none
    | some rate =>
      match qdivChecked (((total : ℚ) - (completed : ℚ))) rate with
      | none => none
      | some eta_seconds =>
        let hours : ℤ := ⌊eta_seconds / 3600⌋
        let minutes : ℤ := ⌊(eta_seconds - 3600 * (hours : ℚ)) / 60⌋
        some (toString hours ++ "h " ++ toString minutes ++ "m")

/-- One row of the track list CSV: a work item. -/
structure WorkItem where
  track_id : String
  track_name : String
deriving DecidableEq, Repr

/-- Mutable state of a ProductionSpotifyScraper during production_scrape,
plus counters for the observable session and persistence effects:
results and failed_tracks are the instance lists, success_count the loop
local, acquires and quits count setup_driver and driver.quit calls,
saves records each save_progress that actually wrote a file (filename
with the results written), and delays records the adaptive delay range
chosen after each item. -/
structure RunState where
  results : List TrackResult
  failed_tracks : List FailedTrack
  success_count : Nat
  acquires : Nat
  quits : Nat
  saves : List (String × List TrackResult)
  delays : List (ℚ × ℚ)
deriving DecidableEq, Repr

/-- State of a ProductionSpotifyScraper as constructed: __init__ calls
setup_driver once (spotify_scraper.py lines 22-25), and all lists start
empty. -/
def initialRunState : RunState :=
  { results := [], failed_tracks := [], success_count := 0
    acquires := 1, quits := 0, saves := [], delays := [] }

/-- Model of SpotifyScraper.save_progress (spotify_scraper.py lines
195-200): writes the current results to the named CSV only when the
results list is nonempty. -/
def save_progress (filename : String) (st : RunState) : RunState :=
  if st.results = [] then st
  else { st with saves := st.saves ++ [(filename, st.results)] }

/-- The body of the production_scrape loop for one processed item
(production_scraper.py lines 123-161): retry-scrape, append the result,
update the success count (line 131: neither "Error" nor "Failed" occurs
in the lyrics), take the adaptive delay, save progress every 25 items,
extended break every 100 items (sleep only, no state), and recycle the
browser every recycleEvery items (quit, pause, setup_driver). The
pace-check block at lines 163-171 only logs and assigns loop locals that
are never read, so it has no modelled effect. -/
def processItem (maxRetries recycleEvery : Nat) (item : WorkItem)
    (ex : Nat → AttemptOutcome) (st : RunState) : RunState :=
  let out := scrape_track_with_retry maxRetries ex item.track_id item.track_name 1
  let results := st.results ++ [out.result]
  let success_count :=
    if hasSubstr out.result.lyrics "Error" = false ∧
        hasSubstr out.result.lyrics "Failed" = false then
      st.success_count + 1
    else st.success_count
  let completed := results.length
  let success_rate : ℚ :=
    if 0 < completed then (success_count : ℚ) / (completed : ℚ) else 0
  let st1 := { st with
    results := results
    failed_tracks := st.failed_tracks ++ out.failedAppended
    success_count := success_count
    delays := st.delays ++ [adaptive_delay_range success_rate 2 5] }
  let st2 :=
    if completed % 25 = 0 then
      save_progress ("spotify_data_progress_" ++ toString completed ++ ".csv") st1
    else st1
  let st3 :=
    if completed % recycleEvery = 0 then
      { st2 with quits := st2.quits + 1, acquires := st2.acquires + 1 }
    else st2
  st3

/-- The iteration of production_scrape over the DataFrame
(production_scraper.py lines 119-171): each row carries its positional
index idx; rows with idx below start_index are skipped (line 120), all
others are processed. Each work item carries the outcome stream its
extraction attempts would produce. -/
def production_loop (maxRetries recycleEvery : Nat) :
    List (WorkItem × (Nat → AttemptOutcome)) → Nat → Nat → RunState → RunState
  | [], _, _, st => st
  | (item, ex) :: rest, idx, start_index, st =>
    if idx < start_index then
      production_loop maxRetries recycleEvery rest (idx + 1) start_index st
    else
      production_loop maxRetries recycleEvery rest (idx + 1) start_index
        (processItem maxRetries recycleEvery item ex st)

/-- Result of a whole production_scrape call: the final scraper state and
the failed-tracks CSV written at the end (none when no write happened). -/
structure RunOutput where
  state : RunState
  savedFailed : Option (List FailedTrack)
deriving DecidableEq, Repr

/-- Model of ProductionSpotifyScraper.production_scrape
(production_scraper.py lines 101-190), with the session recycle cadence
(the literal 300 at line 156) kept as the parameter recycleEvery: run the
loop from index 0, then the final save_progress (line 174), then persist
self.failed_tracks to failed_tracks.csv only if that list is nonempty
(lines 177-179). -/
def production_scrape_k (maxRetries recycleEvery : Nat)
    (items : List (WorkItem × (Nat → AttemptOutcome))) (start_index : Nat) : RunOutput :=
  let stEnd := production_loop maxRetries recycleEvery items 0 start_index initialRunState
  let stFin := save_progress "spotify_data_final.csv" stEnd
  { state := stFin
    savedFailed :=
      if stEnd.failed_tracks = [] then none else some stEnd.failed_tracks }

/-- production_scrape exactly as in the source, where the browser restart
cadence is the literal 300 (production_scraper.py line 156). -/
def production_scrape (maxRetries : Nat)
    (items : List (WorkItem × (Nat → AttemptOutcome))) (start_index : Nat) : RunOutput :=
  production_scrape_k maxRetries 300 items start_index

/-- How a production_scraper.py main run ends: normal completion of
production_scrape, a KeyboardInterrupt, or an unexpected exception. The
two abnormal kinds carry the number of items the loop had processed when
the run stopped (interruption is observed between items). -/
inductive ExitKind where
  | completed
  | interrupted (j : Nat)
  | errored (j : Nat)
deriving DecidableEq, Repr

/-- Observable outcome of production_scraper.py main (lines 192-224):
the scraper state at process end, the failed-tracks CSV if written, and
whether the finally block closed the driver. -/
structure MainOutput where
  state : RunState
  savedFailed : Option (List FailedTrack)
  finalQuit : Bool
deriving DecidableEq, Repr

/-- The scraper state after the production_scrape loop has processed its
first j eligible items (those at index at least start_index): the loop
run over the truncated row list. -/
def loopUpTo (maxRetries recycleEvery : Nat)
    (items : List (WorkItem × (Nat → AttemptOutcome))) (start_index j : Nat) : RunState :=
  production_loop maxRetries recycleEvery (items.take (start_index + j)) 0 start_index
    initialRunState

/-- Model of production_scraper.py main (lines 204-224) for a run that
ends with the given exit kind:
- completed: production_scrape ran to the end (final save and
  failed-tracks persistence included);
- interrupted j / errored j: the loop stopped after j processed items and
  the except branch saved spotify_data_interrupted.csv resp.
  spotify_data_error.csv (via save_progress, so only when results is
  nonempty); the failed-tracks persistence at the end of
  production_scrape is never reached.
In every case the finally block runs scraper.close, which quits the
driver (spotify_scraper.py lines 253-256). -/
def main_run (maxRetries recycleEvery : Nat)
    (items : List (WorkItem × (Nat → AttemptOutcome))) (start_index : Nat) :
    ExitKind → MainOutput
  | .completed =>
    let o := production_scrape_k maxRetries recycleEvery items start_index
    { state := o.state, savedFailed := o.savedFailed, finalQuit := true }
  | .interrupted j =>
    let st := loopUpTo maxRetries recycleEvery items start_index j
    { state := save_progress "spotify_data_interrupted.csv" st
      savedFailed := none, finalQuit := true }
  | .errored j =>
    let st := loopUpTo maxRetries recycleEvery items start_index j
    { state := save_progress "spotify_data_error.csv" st
      savedFailed := none, finalQuit := true }

/-- One row of the CSV handled by lyrics_extractor.py: lyrics is none
when the cell is missing (pandas NaN, or the column absent), and the
lyrics_processing_time column is written only for processed rows. -/
structure CsvRow where
  track_id : String
  track_name : String
  lyrics : Option String
  lyrics_processing_time : Option ℚ
deriving DecidableEq, Repr

/-- The skip test of LyricsExtractor.add_lyrics_to_csv
(lyrics_extractor.py line 167): lyrics already exist (notna) and are not
one of the two placeholder values. -/
def lyricsAlreadyExist (row : CsvRow) : Bool :=
  match row.lyrics with
  | none => false
  | some s =>
    decide (s ≠ "Skipped for speed" ∧ s ≠ "No lyrics available")

/-- The truncation at lyrics_extractor.py lines 150-151: if max_tracks
is truthy (present and nonzero), only the first start_index + max_tracks
rows are kept. -/
def truncateRows (rows : List CsvRow) (start_index : Nat) (max_tracks : Option Nat) :
    List CsvRow :=
  match max_tracks with
  | none => rows
  | some m => if m = 0 then rows else rows.take (start_index + m)

/-- The row loop of LyricsExtractor.add_lyrics_to_csv
(lyrics_extractor.py lines 159-200), returning the updated rows and the
list of row indices for which extract_full_lyrics was invoked. Rows
before start_index and rows whose lyrics already exist are left
untouched; for the others the lyrics cell is set to the extraction
result and the processing-time cell is written. The periodic saves,
delays and browser restarts (lines 188-200) write the same evolving
DataFrame and do not change any row. -/
def addLyricsLoop (extract : Nat → String) (ptime : Nat → ℚ) :
    List CsvRow → Nat → Nat → (List CsvRow × List Nat)
  | [], _, _ => ([], [])
  | row :: rest, idx, start_index =>
    let tail := addLyricsLoop extract ptime rest (idx + 1) start_index
    if idx < start_index then
      (row :: tail.1, tail.2)
    else if lyricsAlreadyExist row then
      (row :: tail.1, tail.2)
    else
      ({ row with lyrics := some (extract idx)
                  lyrics_processing_time := some (ptime idx) } :: tail.1, idx :: tail.2)

/-- Model of LyricsExtractor.add_lyrics_to_csv (lyrics_extractor.py
lines 146-210): truncate per max_tracks, then run the row loop from
index 0. -/
def add_lyrics_to_csv (extract : Nat → String) (ptime : Nat → ℚ)
    (rows : List CsvRow) (start_index : Nat) (max_tracks : Option Nat) :
    List CsvRow × List Nat :=
  addLyricsLoop extract ptime (truncateRows rows start_index max_tracks) 0 start_index

/-- The classifier the retry controller applies to an attempt outcome:
an exception is always retryable; a returned dict is retryable exactly
when it carries the "Error" marker (production_scraper.py lines 49, 57). -/
def retryable : AttemptOutcome → Bool
  | .ok r => hasErrorMarker r
  | .exn _ => true

theorem retry_ok_return (m : Nat) (ex : Nat → AttemptOutcome) (tid tn : String)
    (a : Nat) (r : TrackResult) (hx : ex a = .ok r)
    (h : ¬(hasErrorMarker r = true ∧ a < m)) :
    scrape_track_with_retry m ex tid tn a =
      { result := r, attempts := 1, failedAppended := [], backoffs := [] } := by
  unfold scrape_track_with_retry
  rw [hx]
  simp only [h, dif_neg, not_false_iff]

theorem retry_ok_step (m : Nat) (ex : Nat → AttemptOutcome) (tid tn : String)
    (a : Nat) (r : TrackResult) (hx : ex a = .ok r)
    (hm : hasErrorMarker r = true) (h : a < m) :
    scrape_track_with_retry m ex tid tn a =
      { scrape_track_with_retry m ex tid tn (a + 1) with
        attempts := (scrape_track_with_retry m ex tid tn (a + 1)).attempts + 1
        backoffs := ((5 : ℚ), (10 : ℚ)) ::
          (scrape_track_with_retry m ex tid tn (a + 1)).backoffs } := by
  conv_lhs => unfold scrape_track_with_retry
  rw [hx]
  simp only [dif_pos (And.intro hm h)]

theorem retry_exn_step (m : Nat) (ex : Nat → AttemptOutcome) (tid tn : String)
    (a : Nat) (e : String) (hx : ex a = .exn e) (h : a < m) :
    scrape_track_with_retry m ex tid tn a =
      { scrape_track_with_retry m ex tid tn (a + 1) with
        attempts := (scrape_track_with_retry m ex tid tn (a + 1)).attempts + 1
        backoffs := ((5 : ℚ), (10 : ℚ)) ::
          (scrape_track_with_retry m ex tid tn (a + 1)).backoffs } := by
  conv_lhs => unfold scrape_track_with_retry
  rw [hx]
  simp only [dif_pos h]

theorem retry_exn_exhaust (m : Nat) (ex : Nat → AttemptOutcome) (tid tn : String)
    (a : Nat) (e : String) (hx : ex a = .exn e) (h : ¬ a < m) :
    scrape_track_with_retry m ex tid tn a =
      { result := failedResult m tid tn e
        attempts := 1
        failedAppended := [{ track_id := tid, track_name := tn, error := e }]
        backoffs := [] } := by
  unfold scrape_track_with_retry
  rw [hx]
  simp only [dif_neg h]

/-- Attempt-count bound for an arbitrary outcome stream: a call entered
at attempt number a performs at most m - a + 1 extractor attempts. -/
theorem retry_attempts_le_aux (k : Nat) :
    ∀ (m : Nat) (ex : Nat → AttemptOutcome) (tid tn : String) (a : Nat),
      m - a ≤ k →
      (scrape_track_with_retry m ex tid tn a).attempts ≤ m - a + 1 := by
  induction k with
  | zero =>
    intro m ex tid tn a hk
    have hm : ¬ a < m := by omega
    cases hx : ex a with
    | ok r =>
      rw [retry_ok_return m ex tid tn a r hx (fun hc => hm hc.2)]
      exact Nat.le_add_left 1 (m - a)
    | exn e =>
      rw [retry_exn_exhaust m ex tid tn a e hx hm]
      exact Nat.le_add_left 1 (m - a)
  | succ k ih =>
    intro m ex tid tn a hk
    by_cases hm : a < m
    · have hrec := ih m ex tid tn (a + 1) (by omega)
      cases hx : ex a with
      | ok r =>
        by_cases hmark : hasErrorMarker r = true
        · rw [retry_ok_step m ex tid tn a r hx hmark hm]
          show (scrape_track_with_retry m ex tid tn (a + 1)).attempts + 1 ≤ m - a + 1
          omega
        · rw [retry_ok_return m ex tid tn a r hx (fun hc => hmark hc.1)]
          exact Nat.le_add_left 1 (m - a)
      | exn e =>
        rw [retry_exn_step m ex tid tn a e hx hm]
        show (scrape_track_with_retry m ex tid tn (a + 1)).attempts + 1 ≤ m - a + 1
        omega
    · cases hx : ex a with
      | ok r =>
        rw [retry_ok_return m ex tid tn a r hx (fun hc => hm hc.2)]
        exact Nat.le_add_left 1 (m - a)
      | exn e =>
        rw [retry_exn_exhaust m ex tid tn a e hx hm]
        exact Nat.le_add_left 1 (m - a)

theorem retry_attempts_le (m : Nat) (ex : Nat → AttemptOutcome) (tid tn : String)
    (a : Nat) :
    (scrape_track_with_retry m ex tid tn a).attempts ≤ m - a + 1 :=
  retry_attempts_le_aux (m - a) m ex tid tn a le_rfl

/-- Full characterization of a call on a stream that fails with an
exception at every attempt: the returned outcome, attempt count, the
single failure record appended, and the constant backoff windows. -/
theorem retry_all_exn_aux (k : Nat) :
    ∀ (m : Nat) (ex : Nat → AttemptOutcome) (tid tn : String) (a : Nat),
      m - a ≤ k → a ≤ m →
      (∀ n, (ex n).isExn = true) →
      scrape_track_with_retry m ex tid tn a =
        { result := failedResult m tid tn (ex m).exnMsg
          attempts := m - a + 1
          failedAppended := [{ track_id := tid, track_name := tn, error := (ex m).exnMsg }]
          backoffs := List.replicate (m - a) ((5 : ℚ), (10 : ℚ)) } := by
  induction k with
  | zero =>
    intro m ex tid tn a hk ham hex
    have ha : a = m := by omega
    cases hx : ex a with
    | ok r => exact absurd (hx ▸ hex a) (by simp [AttemptOutcome.isExn])
    | exn e =>
      have hxm : ex m = .exn e := ha ▸ hx
      rw [retry_exn_exhaust m ex tid tn a e hx (by omega), hxm]
      simp [AttemptOutcome.exnMsg, ha]
  | succ k ih =>
    intro m ex tid tn a hk ham hex
    by_cases hm : a < m
    · cases hx : ex a with
      | ok r => exact absurd (hx ▸ hex a) (by simp [AttemptOutcome.isExn])
      | exn e =>
        rw [retry_exn_step m ex tid tn a e hx hm]
        rw [ih m ex tid tn (a + 1) (by omega) (by omega) hex]
        have h1 : m - a = (m - (a + 1)) + 1 := by omega
        simp only [RetryOutcome.mk.injEq, true_and, and_true]
        exact ⟨by omega, by rw [h1, List.replicate_succ]⟩
    · have ha : a = m := by omega
      cases hx : ex a with
      | ok r => exact absurd (hx ▸ hex a) (by simp [AttemptOutcome.isExn])
      | exn e =>
        have hxm : ex m = .exn e := ha ▸ hx
        rw [retry_exn_exhaust m ex tid tn a e hx hm, hxm]
        simp [AttemptOutcome.exnMsg, ha]

theorem retry_all_exn (m : Nat) (ex : Nat → AttemptOutcome) (tid tn : String)
    (a : Nat) (ham : a ≤ m) (hex : ∀ n, (ex n).isExn = true) :
    scrape_track_with_retry m ex tid tn a =
      { result := failedResult m tid tn (ex m).exnMsg
        attempts := m - a + 1
        failedAppended := [{ track_id := tid, track_name := tn, error := (ex m).exnMsg }]
        backoffs := List.replicate (m - a) ((5 : ℚ), (10 : ℚ)) } :=
  retry_all_exn_aux (m - a) m ex tid tn a le_rfl ham hex

/-- A stream that never raises never appends a failure record, whatever
the attempt outcomes look like. -/
theorem retry_no_exn_aux (k : Nat) :
    ∀ (m : Nat) (ex : Nat → AttemptOutcome) (tid tn : String) (a : Nat),
      m - a ≤ k →
      (∀ n, (ex n).isExn = false) →
      (scrape_track_with_retry m ex tid tn a).failedAppended = [] := by
  induction k with
  | zero =>
    intro m ex tid tn a hk hex
    cases hx : ex a with
    | ok r =>
      rw [retry_ok_return m ex tid tn a r hx (fun hc => by omega)]
    | exn e =>
      exact absurd (hx ▸ hex a) (by simp [AttemptOutcome.isExn])
  | succ k ih =>
    intro m ex tid tn a hk hex
    cases hx : ex a with
    | ok r =>
      by_cases hc : hasErrorMarker r = true ∧ a < m
      · rw [retry_ok_step m ex tid tn a r hx hc.1 hc.2]
        exact ih m ex tid tn (a + 1) (by omega) hex
      · rw [retry_ok_return m ex tid tn a r hx hc]
    | exn e =>
      exact absurd (hx ▸ hex a) (by simp [AttemptOutcome.isExn])

theorem retry_no_exn (m : Nat) (ex : Nat → AttemptOutcome) (tid tn : String)
    (a : Nat) (hex : ∀ n, (ex n).isExn = false) :
    (scrape_track_with_retry m ex tid tn a).failedAppended = [] :=
  retry_no_exn_aux (m - a) m ex tid tn a le_rfl hex

/-- Full characterization of a call on a stream that returns the same
"Error"-marked dict at every attempt: the marked dict is returned after
exhausting the retries, no failure record is appended, and the backoff
windows are the constant (5, 10). -/
theorem retry_const_marked_aux (k : Nat) :
    ∀ (m : Nat) (r : TrackResult) (tid tn : String) (a : Nat),
      m - a ≤ k → a ≤ m →
      hasErrorMarker r = true →
      scrape_track_with_retry m (fun _ => .ok r) tid tn a =
        { result := r
          attempts := m - a + 1
          failedAppended := []
          backoffs := List.replicate (m - a) ((5 : ℚ), (10 : ℚ)) } := by
  induction k with
  | zero =>
    intro m r tid tn a hk ham hmark
    have ha : a = m := by omega
    rw [retry_ok_return m _ tid tn a r rfl (fun hc => by omega)]
    simp [ha]
  | succ k ih =>
    intro m r tid tn a hk ham hmark
    by_cases hm : a < m
    · rw [retry_ok_step m _ tid tn a r rfl hmark hm]
      rw [ih m r tid tn (a + 1) (by omega) (by omega) hmark]
      have h1 : m - a = (m - (a + 1)) + 1 := by omega
      simp only [RetryOutcome.mk.injEq, true_and, and_true]
      exact ⟨by omega, by rw [h1, List.replicate_succ]⟩
    · have ha : a = m := by omega
      rw [retry_ok_return m _ tid tn a r rfl (fun hc => by omega)]
      simp [ha]

theorem retry_const_marked (m : Nat) (r : TrackResult) (tid tn : String)
    (a : Nat) (ham : a ≤ m) (hmark : hasErrorMarker r = true) :
    scrape_track_with_retry m (fun _ => .ok r) tid tn a =
      { result := r
        attempts := m - a + 1
        failedAppended := []
        backoffs := List.replicate (m - a) ((5 : ℚ), (10 : ℚ)) } :=
  retry_const_marked_aux (m - a) m r tid tn a le_rfl ham hmark

/-- The ResultRecord one processed item contributes to self.results. -/
def itemRecord (m : Nat) (p : WorkItem × (Nat → AttemptOutcome)) : TrackResult :=
  (scrape_track_with_retry m p.2 p.1.track_id p.1.track_name 1).result

/-- The failure records the processed items of a row list contribute to
self.failed_tracks, in order. -/
def itemFailures (m : Nat) : List (WorkItem × (Nat → AttemptOutcome)) → List FailedTrack
  | [] => []
  | p :: rest =>
    (scrape_track_with_retry m p.2 p.1.track_id p.1.track_name 1).failedAppended ++
      itemFailures m rest

/-- Processing a row list in order with no skipping: the tail of the
production loop once the start index has been passed. -/
def processList (m k : Nat) : List (WorkItem × (Nat → AttemptOutcome)) → RunState → RunState
  | [], st => st
  | p :: rest, st => processList m k rest (processItem m k p.1 p.2 st)

theorem processItem_results (m k : Nat) (it : WorkItem) (ex : Nat → AttemptOutcome)
    (st : RunState) :
    (processItem m k it ex st).results =
      st.results ++ [(scrape_track_with_retry m ex it.track_id it.track_name 1).result] := by
  simp only [processItem, save_progress]
  split_ifs <;> rfl

theorem processItem_len (m k : Nat) (it : WorkItem) (ex : Nat → AttemptOutcome)
    (st : RunState) :
    (processItem m k it ex st).results.length = st.results.length + 1 := by
  rw [processItem_results]
  simp

theorem processItem_failed (m k : Nat) (it : WorkItem) (ex : Nat → AttemptOutcome)
    (st : RunState) :
    (processItem m k it ex st).failed_tracks =
      st.failed_tracks ++
        (scrape_track_with_retry m ex it.track_id it.track_name 1).failedAppended := by
  simp only [processItem, save_progress]
  split_ifs <;> rfl

theorem processItem_acquires (m k : Nat) (it : WorkItem) (ex : Nat → AttemptOutcome)
    (st : RunState) :
    (processItem m k it ex st).acquires =
      st.acquires + (if (st.results.length + 1) % k = 0 then 1 else 0) := by
  simp only [processItem, save_progress, List.length_append, List.length_cons,
    List.length_nil, Nat.zero_add]
  split_ifs <;> rfl

theorem processItem_quits (m k : Nat) (it : WorkItem) (ex : Nat → AttemptOutcome)
    (st : RunState) :
    (processItem m k it ex st).quits =
      st.quits + (if (st.results.length + 1) % k = 0 then 1 else 0) := by
  simp only [processItem, save_progress, List.length_append, List.length_cons,
    List.length_nil, Nat.zero_add]
  split_ifs <;> rfl

theorem processList_results (m k : Nat) :
    ∀ (l : List (WorkItem × (Nat → AttemptOutcome))) (st : RunState),
      (processList m k l st).results = st.results ++ l.map (itemRecord m) := by
  intro l
  induction l with
  | nil => intro st; simp [processList]
  | cons p rest ih =>
    intro st
    show (processList m k rest (processItem m k p.1 p.2 st)).results = _
    rw [ih, processItem_results]
    simp [itemRecord]

theorem processList_len (m k : Nat) (l : List (WorkItem × (Nat → AttemptOutcome)))
    (st : RunState) :
    (processList m k l st).results.length = st.results.length + l.length := by
  rw [processList_results]
  simp

theorem processList_failed (m k : Nat) :
    ∀ (l : List (WorkItem × (Nat → AttemptOutcome))) (st : RunState),
      (processList m k l st).failed_tracks = st.failed_tracks ++ itemFailures m l := by
  intro l
  induction l with
  | nil => intro st; simp [processList, itemFailures]
  | cons p rest ih =>
    intro st
    show (processList m k rest (processItem m k p.1 p.2 st)).failed_tracks = _
    rw [ih, processItem_failed, itemFailures]
    simp

/-- Counting the recycle boundaries: processing n further items from a
state holding c results fires the every-k recycle once per multiple of k
in the interval from c + 1 to c + n, i.e. (c + n) / k - c / k times. -/
theorem processList_acquires_quits (m k : Nat) (hk : 0 < k) :
    ∀ (l : List (WorkItem × (Nat → AttemptOutcome))) (st : RunState),
      (processList m k l st).acquires =
        st.acquires + ((st.results.length + l.length) / k - st.results.length / k) ∧
      (processList m k l st).quits =
        st.quits + ((st.results.length + l.length) / k - st.results.length / k) := by
  intro l
  induction l with
  | nil =>
    intro st
    simp [processList]
  | cons p rest ih =>
    intro st
    have hacq := processItem_acquires m k p.1 p.2 st
    have hqui := processItem_quits m k p.1 p.2 st
    have hlen := processItem_len m k p.1 p.2 st
    have hstep := ih (processItem m k p.1 p.2 st)
    rw [hlen, hacq, hqui] at hstep
    have hsucc : (st.results.length + 1) / k =
        st.results.length / k + if k ∣ st.results.length + 1 then 1 else 0 :=
      Nat.succ_div st.results.length k
    have hmono1 : st.results.length / k ≤ (st.results.length + 1) / k :=
      Nat.div_le_div_right (by omega)
    have hmono2 : (st.results.length + 1) / k ≤ (st.results.length + 1 + rest.length) / k :=
      Nat.div_le_div_right (by omega)
    have hdvd : k ∣ st.results.length + 1 ↔ (st.results.length + 1) % k = 0 :=
      Nat.dvd_iff_mod_eq_zero
    have harr : st.results.length + 1 + rest.length = st.results.length + (rest.length + 1) := by
      omega
    rw [harr] at hstep hmono2
    show (processList m k rest (processItem m k p.1 p.2 st)).acquires = _ ∧
      (processList m k rest (processItem m k p.1 p.2 st)).quits = _
    rw [hstep.1, hstep.2]
    simp only [List.length_cons]
    by_cases hd : (st.results.length + 1) % k = 0
    · rw [if_pos (hdvd.mpr hd)] at hsucc
      rw [if_pos hd]
      omega
    · rw [if_neg (fun hc => hd (hdvd.mp hc))] at hsucc
      rw [if_neg hd]
      omega

/-- Once the row index has reached the start index, the loop processes
every remaining row. -/
theorem production_loop_ge (m k : Nat) :
    ∀ (l : List (WorkItem × (Nat → AttemptOutcome))) (idx start_index : Nat) (st : RunState),
      start_index ≤ idx →
      production_loop m k l idx start_index st = processList m k l st := by
  intro l
  induction l with
  | nil => intro idx s st h; rfl
  | cons p rest ih =>
    intro idx s st h
    show production_loop m k (p :: rest) idx s st = _
    rw [production_loop]
    rw [if_neg (by omega)]
    exact ih (idx + 1) s (processItem m k p.1 p.2 st) (by omega)

/-- The loop started at row index idx with resume index start_index
processes exactly the rows after dropping the first
start_index - idx of them. -/
theorem production_loop_drop (m k : Nat) :
    ∀ (l : List (WorkItem × (Nat → AttemptOutcome))) (idx start_index : Nat) (st : RunState),
      production_loop m k l idx start_index st =
        processList m k (l.drop (start_index - idx)) st := by
  intro l
  induction l with
  | nil => intro idx s st; simp [production_loop, processList]
  | cons p rest ih =>
    intro idx s st
    by_cases h : idx < s
    · rw [production_loop, if_pos h, ih (idx + 1) s st]
      have hdrop : s - idx = (s - (idx + 1)) + 1 := by omega
      rw [hdrop, List.drop_succ_cons]
    · rw [production_loop, if_neg h]
      have h0 : s - idx = 0 := by omega
      rw [h0, List.drop_zero]
      rw [production_loop_ge m k rest (idx + 1) s _ (by omega)]
      rfl

theorem save_progress_results (f : String) (st : RunState) :
    (save_progress f st).results = st.results := by
  unfold save_progress
  split_ifs <;> rfl

theorem save_progress_failed (f : String) (st : RunState) :
    (save_progress f st).failed_tracks = st.failed_tracks := by
  unfold save_progress
  split_ifs <;> rfl

theorem save_progress_acquires (f : String) (st : RunState) :
    (save_progress f st).acquires = st.acquires := by
  unfold save_progress
  split_ifs <;> rfl

theorem save_progress_quits (f : String) (st : RunState) :
    (save_progress f st).quits = st.quits := by
  unfold save_progress
  split_ifs <;> rfl

theorem save_progress_saves (f : String) (st : RunState) (h : st.results ≠ []) :
    (save_progress f st).saves = st.saves ++ [(f, st.results)] := by
  unfold save_progress
  rw [if_neg h]

/-- The results ledger of a full production_scrape run: exactly one
record per row from the start index on, in row order. -/
theorem production_results (m k : Nat)
    (items : List (WorkItem × (Nat → AttemptOutcome))) (s : Nat) :
    (production_scrape_k m k items s).state.results =
      (items.drop s).map (itemRecord m) := by
  unfold production_scrape_k
  rw [save_progress_results, production_loop_drop, Nat.sub_zero,
    processList_results]
  rfl

/-- The failed-tracks ledger of a full production_scrape run. -/
theorem production_failed (m k : Nat)
    (items : List (WorkItem × (Nat → AttemptOutcome))) (s : Nat) :
    (production_scrape_k m k items s).state.failed_tracks =
      itemFailures m (items.drop s) ∧
    (production_scrape_k m k items s).savedFailed =
      (if itemFailures m (items.drop s) = [] then none
       else some (itemFailures m (items.drop s))) := by
  have hloop : (production_loop m k items 0 s initialRunState).failed_tracks =
      itemFailures m (items.drop s) := by
    rw [production_loop_drop, Nat.sub_zero, processList_failed]
    rfl
  constructor
  · show (save_progress "spotify_data_final.csv" _).failed_tracks = _
    rw [save_progress_failed, hloop]
  · show (if (production_loop m k items 0 s initialRunState).failed_tracks = []
        then none else some (production_loop m k items 0 s initialRunState).failed_tracks) = _
    rw [hloop]

/-- The session-acquire and session-quit counts of a full
production_scrape run: one initial acquire plus one recycle per
recycleEvery processed items. -/
theorem production_acquires_quits (m k : Nat) (hk : 0 < k)
    (items : List (WorkItem × (Nat → AttemptOutcome))) (s : Nat) :
    (production_scrape_k m k items s).state.acquires =
      (items.length - s) / k + 1 ∧
    (production_scrape_k m k items s).state.quits =
      (items.length - s) / k := by
  have hpl := processList_acquires_quits m k hk (items.drop s) initialRunState
  have hlen : (items.drop s).length = items.length - s := List.length_drop s items
  rw [hlen] at hpl
  unfold production_scrape_k
  simp only [initialRunState, List.length_nil, Nat.zero_add, Nat.zero_div,
    Nat.sub_zero] at hpl
  constructor
  · rw [save_progress_acquires, production_loop_drop, Nat.sub_zero]
    simp only [initialRunState]
    rw [hpl.1]
    omega
  · rw [save_progress_quits, production_loop_drop, Nat.sub_zero]
    simp only [initialRunState]
    rw [hpl.2]

/-- With retries still available, the controller stops after a single
attempt, with no backoff sleep, exactly when the classifier deems the
first outcome non-retryable. -/
theorem retry_immediate_iff (m : Nat) (ex : Nat → AttemptOutcome) (tid tn : String)
    (a : Nat) (h : a < m) :
    ((scrape_track_with_retry m ex tid tn a).attempts = 1 ∧
      (scrape_track_with_retry m ex tid tn a).backoffs = []) ↔
    retryable (ex a) = false := by
  cases hx : ex a with
  | ok r =>
    by_cases hmark : hasErrorMarker r = true
    · rw [retry_ok_step m ex tid tn a r hx hmark h]
      simp [retryable, hmark]
    · rw [retry_ok_return m ex tid tn a r hx (fun hc => hmark hc.1)]
      simp [retryable]
      exact Bool.not_eq_true _ ▸ (by simpa using hmark)
  | exn e =>
    rw [retry_exn_step m ex tid tn a e hx h]
    simp [retryable]

/-- Every backoff window the retry controller ever sleeps is the
constant range (5, 10) of production_scraper.py lines 51 and 59. -/
theorem retry_backoffs_mem_aux (k : Nat) :
    ∀ (m : Nat) (ex : Nat → AttemptOutcome) (tid tn : String) (a : Nat)
      (p : ℚ × ℚ),
      m - a ≤ k →
      p ∈ (scrape_track_with_retry m ex tid tn a).backoffs →
      p = ((5 : ℚ), (10 : ℚ)) := by
  induction k with
  | zero =>
    intro m ex tid tn a p hk hp
    have hm : ¬ a < m := by omega
    cases hx : ex a with
    | ok r =>
      rw [retry_ok_return m ex tid tn a r hx (fun hc => hm hc.2)] at hp
      simp at hp
    | exn e =>
      rw [retry_exn_exhaust m ex tid tn a e hx hm] at hp
      simp at hp
  | succ k ih =>
    intro m ex tid tn a p hk hp
    by_cases hm : a < m
    · cases hx : ex a with
      | ok r =>
        by_cases hmark : hasErrorMarker r = true
        · rw [retry_ok_step m ex tid tn a r hx hmark hm] at hp
          simp only [List.mem_cons] at hp
          rcases hp with hp | hp
          · exact hp
          · exact ih m ex tid tn (a + 1) p (by omega) hp
        · rw [retry_ok_return m ex tid tn a r hx (fun hc => hmark hc.1)] at hp
          simp at hp
      | exn e =>
        rw [retry_exn_step m ex tid tn a e hx hm] at hp
        simp only [List.mem_cons] at hp
        rcases hp with hp | hp
        · exact hp
        · exact ih m ex tid tn (a + 1) p (by omega) hp
    · cases hx : ex a with
      | ok r =>
        rw [retry_ok_return m ex tid tn a r hx (fun hc => hm hc.2)] at hp
        simp at hp
      | exn e =>
        rw [retry_exn_exhaust m ex tid tn a e hx hm] at hp
        simp at hp

theorem retry_backoffs_mem (m : Nat) (ex : Nat → AttemptOutcome) (tid tn : String)
    (a : Nat) (p : ℚ × ℚ)
    (hp : p ∈ (scrape_track_with_retry m ex tid tn a).backoffs) :
    p = ((5 : ℚ), (10 : ℚ)) :=
  retry_backoffs_mem_aux (m - a) m ex tid tn a p le_rfl hp

theorem getLast_append_one {α : Type} :
    ∀ (l : List α) (a : α), (l ++ [a]).getLast? = some a := by
  intro l a
  induction l with
  | nil => rfl
  | cons b t ih =>
    cases t with
    | nil => rfl
    | cons c t2 =>
      show (b :: ((c :: t2) ++ [a])).getLast? = some a
      rw [show ((c :: t2) ++ [a]) = c :: (t2 ++ [a]) from List.cons_append c t2 [a]]
      rw [List.getLast?_cons_cons]
      rw [← List.cons_append]
      exact ih

/-- A uniform draw from a well-formed range stays inside the range. -/
theorem uniformDraw_mem (lo hi r : ℚ) (hlo : lo ≤ hi) (h0 : 0 ≤ r) (h1 : r ≤ 1) :
    lo ≤ uniformDraw lo hi r ∧ uniformDraw lo hi r ≤ hi := by
  unfold uniformDraw
  constructor
  · nlinarith
  · nlinarith

theorem save_progress_last (f : String) (st : RunState) (h : st.results ≠ []) :
    (save_progress f st).saves.getLast? = some (f, (save_progress f st).results) := by
  rw [save_progress_results, save_progress_saves f st h, getLast_append_one]

/-- Every exit kind of main closes the driver, and whenever the results
list is nonempty at exit, the very last file written holds exactly the
results accumulated so far. -/
theorem main_exit_saves (m k : Nat)
    (items : List (WorkItem × (Nat → AttemptOutcome))) (s : Nat) (ek : ExitKind) :
    (main_run m k items s ek).finalQuit = true ∧
    ((main_run m k items s ek).state.results ≠ [] →
      ∃ fn, (main_run m k items s ek).state.saves.getLast? =
        some (fn, (main_run m k items s ek).state.results)) := by
  cases ek with
  | completed =>
    refine ⟨rfl, fun h => ?_⟩
    simp only [main_run, production_scrape_k] at h ⊢
    exact ⟨"spotify_data_final.csv",
      save_progress_last "spotify_data_final.csv" _ (by rwa [save_progress_results] at h)⟩
  | interrupted j =>
    refine ⟨rfl, fun h => ?_⟩
    simp only [main_run] at h ⊢
    exact ⟨"spotify_data_interrupted.csv",
      save_progress_last "spotify_data_interrupted.csv" _
        (by rwa [save_progress_results] at h)⟩
  | errored j =>
    refine ⟨rfl, fun h => ?_⟩
    simp only [main_run] at h ⊢
    exact ⟨"spotify_data_error.csv",
      save_progress_last "spotify_data_error.csv" _
        (by rwa [save_progress_results] at h)⟩

/-- Indices at which the lyrics loop extracts are never below the row
index at which the loop was entered. -/
theorem addLyricsLoop_idx_ge (extract : Nat → String) (ptime : Nat → ℚ) :
    ∀ (rows : List CsvRow) (idx s j : Nat),
      j ∈ (addLyricsLoop extract ptime rows idx s).2 → idx ≤ j := by
  intro rows
  induction rows with
  | nil => intro idx s j hj; simp [addLyricsLoop] at hj
  | cons r rest ih =>
    intro idx s j hj
    simp only [addLyricsLoop] at hj
    split_ifs at hj with h1 h2
    · exact Nat.le_of_succ_le (ih (idx + 1) s j hj)
    · exact Nat.le_of_succ_le (ih (idx + 1) s j hj)
    · simp only [List.mem_cons] at hj
      rcases hj with hj | hj
      · omega
      · exact Nat.le_of_succ_le (ih (idx + 1) s j hj)

/-- A row whose lyrics already exist (present and not a placeholder) is
passed through the lyrics loop unchanged and its index is never
extracted. -/
theorem addLyricsLoop_unchanged (extract : Nat → String) (ptime : Nat → ℚ) :
    ∀ (rows : List CsvRow) (idx s i : Nat) (row : CsvRow),
      rows[i]? = some row →
      lyricsAlreadyExist row = true →
      ((addLyricsLoop extract ptime rows idx s).1)[i]? = some row ∧
      (idx + i) ∉ (addLyricsLoop extract ptime rows idx s).2 := by
  intro rows
  induction rows with
  | nil => intro idx s i row hrow hex; simp at hrow
  | cons r rest ih =>
    intro idx s i row hrow hex
    simp only [addLyricsLoop]
    cases i with
    | zero =>
      simp only [List.getElem?_cons_zero, Option.some.injEq] at hrow
      subst hrow
      split_ifs with h1
      · refine ⟨by simp, fun hmem => ?_⟩
        have := addLyricsLoop_idx_ge extract ptime rest (idx + 1) s idx (by simpa using hmem)
        omega
      · refine ⟨by simp, fun hmem => ?_⟩
        have := addLyricsLoop_idx_ge extract ptime rest (idx + 1) s idx (by simpa using hmem)
        omega
    | succ n =>
      simp only [List.getElem?_cons_succ] at hrow
      have hrec := ih (idx + 1) s n row hrow hex
      have harith : idx + 1 + n = idx + (n + 1) := by omega
      split_ifs with h1 h2
      · refine ⟨by simpa using hrec.1, fun hmem => ?_⟩
        exact hrec.2 (by rw [harith]; simpa using hmem)
      · refine ⟨by simpa using hrec.1, fun hmem => ?_⟩
        exact hrec.2 (by rw [harith]; simpa using hmem)
      · refine ⟨by simpa using hrec.1, fun hmem => ?_⟩
        have hmem2 : idx + (n + 1) ∈ idx :: (addLyricsLoop extract ptime rest (idx + 1) s).2 := by
          simpa using hmem
        simp only [List.mem_cons] at hmem2
        rcases hmem2 with hj | hj
        · omega
        · exact hrec.2 (by rwa [harith])

/-- C1: the claim that an always-failing extractor yields an attempt
count of exactly maxRetries + 1 is false on the code: with
max_retries = 3 the recursion guard attempt < max_retries admits
attempts 1, 2, 3 only, so an always-raising stream is tried exactly 3
times, not 4. -/
theorem C1_counterexample :
    (scrape_track_with_retry 3 (fun _ => AttemptOutcome.exn "boom") "t1" "Song A" 1).attempts
      = 3 ∧ (3 : Nat) ≠ 3 + 1 := by
  constructor
  · rw [retry_all_exn 3 (fun _ => AttemptOutcome.exn "boom") "t1" "Song A" 1
      (by norm_num) (fun n => rfl)]
  · omega

/-- C1 (amended): for maxRetries at least 1 and an extractor that raises
on every attempt, scrape_track_with_retry entered at attempt 1 performs
exactly maxRetries attempts (not maxRetries + 1), and for every
extractor the attempt count never exceeds maxRetries. -/
theorem C1_retry_attempt_count (m : Nat) (ex : Nat → AttemptOutcome)
    (tid tn : String) (hm : 1 ≤ m) (hex : ∀ n, (ex n).isExn = true) :
    (scrape_track_with_retry m ex tid tn 1).attempts = m ∧
    ∀ ex2 : Nat → AttemptOutcome,
      (scrape_track_with_retry m ex2 tid tn 1).attempts ≤ m := by
  constructor
  · rw [retry_all_exn m ex tid tn 1 hm hex]
    show m - 1 + 1 = m
    omega
  · intro ex2
    have := retry_attempts_le m ex2 tid tn 1
    omega

theorem C1_retry_attempt_count_witness :
    1 ≤ 3 ∧
    ((scrape_track_with_retry 3 (fun _ => AttemptOutcome.exn "x") "t" "n" 1).attempts = 3 ∧
      ∀ ex2 : Nat → AttemptOutcome,
        (scrape_track_with_retry 3 ex2 "t" "n" 1).attempts ≤ 3) :=
  ⟨by norm_num,
    C1_retry_attempt_count 3 (fun _ => AttemptOutcome.exn "x") "t" "n"
      (by norm_num) (fun n => rfl)⟩

/-- C2: the controller classifies an outcome as retryable exactly when
the attempt raised, or the returned dict holds the literal "Error" in
its lyrics or cover_image_url field; a non-retryable success is
returned as is after a single attempt with no backoff sleep, and, while
retries remain, a single attempt with no backoff happens exactly on
non-retryable outcomes. -/
theorem C2_retryable_classification :
    (∀ o : AttemptOutcome, retryable o = true ↔
      ((∃ e, o = AttemptOutcome.exn e) ∨
        ∃ r, o = AttemptOutcome.ok r ∧
          (hasSubstr r.lyrics "Error" = true ∨
            hasSubstr r.cover_image_url "Error" = true))) ∧
    (∀ (m : Nat) (ex : Nat → AttemptOutcome) (tid tn : String) (a : Nat)
      (r : TrackResult),
      ex a = AttemptOutcome.ok r → retryable (ex a) = false →
      scrape_track_with_retry m ex tid tn a =
        { result := r, attempts := 1, failedAppended := [], backoffs := [] }) ∧
    (∀ (m : Nat) (ex : Nat → AttemptOutcome) (tid tn : String) (a : Nat),
      a < m →
      (((scrape_track_with_retry m ex tid tn a).attempts = 1 ∧
        (scrape_track_with_retry m ex tid tn a).backoffs = []) ↔
        retryable (ex a) = false)) := by
  refine ⟨?_, ?_, ?_⟩
  · intro o
    cases o with
    | ok r => simp [retryable, hasErrorMarker, Bool.or_eq_true]
    | exn e => simp [retryable]
  · intro m ex tid tn a r hx hne
    rw [hx] at hne
    have hmark : hasErrorMarker r = false := by simpa [retryable] using hne
    exact retry_ok_return m ex tid tn a r hx (fun hc => by simp [hmark] at hc)
  · intro m ex tid tn a h
    exact retry_immediate_iff m ex tid tn a h

/-- A concrete clean extraction result, with no "Error" marker. -/
def cleanTrack : TrackResult :=
  { track_id := "t9", track_name := "Song B"
    spotify_url := "https://open.spotify.com/track/t9"
    lyrics := "la la la", cover_image_url := "https://i.scdn.co/image/x" }

theorem C2_retryable_classification_witness :
    ((fun _ : Nat => AttemptOutcome.ok cleanTrack) 1 = AttemptOutcome.ok cleanTrack) ∧
    retryable ((fun _ : Nat => AttemptOutcome.ok cleanTrack) 1) = false ∧
    scrape_track_with_retry 3 (fun _ => AttemptOutcome.ok cleanTrack) "t9" "Song B" 1 =
      { result := cleanTrack, attempts := 1, failedAppended := [], backoffs := [] } :=
  ⟨rfl, by decide,
    C2_retryable_classification.2.1 3 (fun _ => AttemptOutcome.ok cleanTrack)
      "t9" "Song B" 1 cleanTrack rfl (by decide)⟩

/-- C3: the adaptive rate controller widens the base range (2, 5) to
(2 * 1.5, 5 * 2) below success rate 0.8, narrows it to
(2 * 0.8, 5 * 0.8) above 0.95, and keeps the base range in between; a
uniform draw stays inside the active range, and the synthetic rates
0.5, 0.99 and 0.85 select the widened, narrowed and base range. -/
theorem C3_rate_adaptation (s r : ℚ) (h0 : 0 ≤ r) (h1 : r ≤ 1) :
    (s < 0.8 → adaptive_delay_range s 2 5 = (2 * 1.5, 5 * 2) ∧
      2 * 1.5 ≤ uniformDraw (2 * 1.5) (5 * 2) r ∧
      uniformDraw (2 * 1.5) (5 * 2) r ≤ 5 * 2) ∧
    (s > 0.95 → adaptive_delay_range s 2 5 = (2 * 0.8, 5 * 0.8) ∧
      2 * 0.8 ≤ uniformDraw (2 * 0.8) (5 * 0.8) r ∧
      uniformDraw (2 * 0.8) (5 * 0.8) r ≤ 5 * 0.8) ∧
    (0.8 ≤ s → s ≤ 0.95 → adaptive_delay_range s 2 5 = (2, 5) ∧
      2 ≤ uniformDraw 2 5 r ∧ uniformDraw 2 5 r ≤ 5) ∧
    adaptive_delay_range 0.5 2 5 = (2 * 1.5, 5 * 2) ∧
    adaptive_delay_range 0.99 2 5 = (2 * 0.8, 5 * 0.8) ∧
    adaptive_delay_range 0.85 2 5 = (2, 5) := by
  refine ⟨?_, ?_, ?_, ?_, ?_, ?_⟩
  · intro h
    refine ⟨by simp [adaptive_delay_range, h], ?_⟩
    exact uniformDraw_mem (2 * 1.5) (5 * 2) r (by norm_num) h0 h1
  · intro h
    have hn : ¬ s < 0.8 := by linarith
    refine ⟨by simp [adaptive_delay_range, hn, h], ?_⟩
    exact uniformDraw_mem (2 * 0.8) (5 * 0.8) r (by norm_num) h0 h1
  · intro hlo hhi
    have hn : ¬ s < 0.8 := by linarith
    have hn2 : ¬ s > 0.95 := by linarith
    refine ⟨by simp [adaptive_delay_range, hn, hn2], ?_⟩
    exact uniformDraw_mem 2 5 r (by norm_num) h0 h1
  · norm_num [adaptive_delay_range]
  · norm_num [adaptive_delay_range]
  · norm_num [adaptive_delay_range]

theorem C3_rate_adaptation_witness :
    (0 : ℚ) ≤ 1/2 ∧ (1/2 : ℚ) ≤ 1 ∧
    adaptive_delay_range 0.5 2 5 = (2 * 1.5, 5 * 2) ∧
    adaptive_delay_range 0.99 2 5 = (2 * 0.8, 5 * 0.8) ∧
    adaptive_delay_range 0.85 2 5 = (2, 5) :=
  ⟨by norm_num, by norm_num,
    (C3_rate_adaptation 0.5 (1/2) (by norm_num) (by norm_num)).2.2.2.1,
    (C3_rate_adaptation 0.5 (1/2) (by norm_num) (by norm_num)).2.2.2.2.1,
    (C3_rate_adaptation 0.5 (1/2) (by norm_num) (by norm_num)).2.2.2.2.2⟩

/-- A concrete extraction result carrying the "Error" marker, as
extract_lyrics produces on failure (spotify_scraper.py line 134). -/
def errorTrack : TrackResult :=
  { track_id := "t2", track_name := "Song C"
    spotify_url := "https://open.spotify.com/track/t2"
    lyrics := "Error extracting lyrics", cover_image_url := "No image available" }

/-- A one-row work list whose extraction always returns the
"Error"-marked dict. -/
def errItems : List (WorkItem × (Nat → AttemptOutcome)) :=
  [({ track_id := "t2", track_name := "Song C" }, fun _ => AttemptOutcome.ok errorTrack)]

/-- C4: the claim that every item exhausting its retries with a Failure
lands in the persisted FailureRecord set regardless of failure mode is
false on the code: a run over one item whose every attempt returns an
"Error"-marked dict exhausts all 3 attempts, records the marked result,
yet appends nothing to failed_tracks and writes no failed-tracks CSV
(the append at production_scraper.py line 63 sits in the exception
branch only). -/
theorem C4_counterexample :
    (production_scrape 3 errItems 0).state.failed_tracks = [] ∧
    (production_scrape 3 errItems 0).savedFailed = none ∧
    (production_scrape 3 errItems 0).state.results = [errorTrack] ∧
    hasErrorMarker errorTrack = true ∧
    (scrape_track_with_retry 3 (fun _ => AttemptOutcome.ok errorTrack)
      "t2" "Song C" 1).attempts = 3 := by
  have hmark : hasErrorMarker errorTrack = true := by decide
  have hscr := retry_const_marked 3 errorTrack "t2" "Song C" 1 (by norm_num) hmark
  have hif : itemFailures 3 errItems = [] := by
    show (scrape_track_with_retry 3 (fun _ => AttemptOutcome.ok errorTrack)
      "t2" "Song C" 1).failedAppended ++ itemFailures 3 [] = []
    rw [hscr]
    rfl
  have hp := production_failed 3 300 errItems 0
  rw [List.drop_zero] at hp
  refine ⟨?_, ?_, ?_, hmark, ?_⟩
  · show (production_scrape_k 3 300 errItems 0).state.failed_tracks = []
    rw [hp.1, hif]
  · show (production_scrape_k 3 300 errItems 0).savedFailed = none
    rw [hp.2, hif]
    rfl
  · show (production_scrape_k 3 300 errItems 0).state.results = [errorTrack]
    rw [production_results, List.drop_zero]
    show [(scrape_track_with_retry 3 (fun _ => AttemptOutcome.ok errorTrack)
      "t2" "Song C" 1).result] = [errorTrack]
    rw [hscr]
  · rw [hscr]

/-- C4 (amended): failure records are appended exactly on
exception-exhaustion: a stream that never raises appends none, even
when it exhausts retries on "Error"-marked fields; an always-raising
stream appends exactly one record holding the last exception string
(and no attempt count); a full run accumulates the per-item appends of
the processed rows in order and persists them at end of run exactly
when the list is nonempty. -/
theorem C4_failure_records :
    (∀ (m : Nat) (ex : Nat → AttemptOutcome) (tid tn : String) (a : Nat),
      (∀ n, (ex n).isExn = false) →
      (scrape_track_with_retry m ex tid tn a).failedAppended = []) ∧
    (∀ (m : Nat) (ex : Nat → AttemptOutcome) (tid tn : String),
      1 ≤ m → (∀ n, (ex n).isExn = true) →
      (scrape_track_with_retry m ex tid tn 1).failedAppended =
        [{ track_id := tid, track_name := tn, error := (ex m).exnMsg }]) ∧
    (∀ (m k : Nat) (items : List (WorkItem × (Nat → AttemptOutcome))) (s : Nat),
      (production_scrape_k m k items s).state.failed_tracks =
        itemFailures m (items.drop s) ∧
      (production_scrape_k m k items s).savedFailed =
        (if itemFailures m (items.drop s) = [] then none
         else some (itemFailures m (items.drop s)))) := by
  refine ⟨?_, ?_, ?_⟩
  · intro m ex tid tn a hex
    exact retry_no_exn m ex tid tn a hex
  · intro m ex tid tn hm hex
    rw [retry_all_exn m ex tid tn 1 hm hex]
  · intro m k items s
    exact production_failed m k items s

theorem C4_failure_records_witness :
    (∀ n, ((fun _ : Nat => AttemptOutcome.ok errorTrack) n).isExn = false) ∧
    (scrape_track_with_retry 3 (fun _ => AttemptOutcome.ok errorTrack)
      "t2" "Song C" 1).failedAppended = [] :=
  ⟨fun n => rfl,
    C4_failure_records.1 3 (fun _ => AttemptOutcome.ok errorTrack)
      "t2" "Song C" 1 (fun n => rfl)⟩

/-- C5: the claim that Session acquisition happens ceil(N/k) + 1 times
is false on the code: over one processed item with the recycle cadence
300 of production_scraper.py line 156, setup_driver runs once (the
initial acquire), while ceil(1/300) + 1 = 2; the recycle at
completed % 300 == 0 fires floor(N/300) times, not ceil(N/300). -/
theorem C5_counterexample :
    (production_scrape 3 errItems 0).state.acquires = 1 ∧
    (1 + 300 - 1) / 300 + 1 = 2 ∧ (1 : Nat) ≠ 2 := by
  refine ⟨?_, by norm_num, by norm_num⟩
  show (production_scrape_k 3 300 errItems 0).state.acquires = 1
  rw [(production_acquires_quits 3 300 (by norm_num) errItems 0).1]
  norm_num [errItems]

/-- C5 (amended): over a run with recycle cadence k from start index s,
setup_driver is invoked exactly floor(N/k) + 1 times for the N
processed items (the initial acquire plus one per completed-count
multiple of k), and driver.quit correspondingly floor(N/k) times during
the run; each recycle is quit, pause, then a fresh acquire. -/
theorem C5_session_acquires (m k : Nat) (hk : 0 < k)
    (items : List (WorkItem × (Nat → AttemptOutcome))) (s : Nat) :
    (production_scrape_k m k items s).state.acquires =
      (items.length - s) / k + 1 ∧
    (production_scrape_k m k items s).state.quits =
      (items.length - s) / k :=
  production_acquires_quits m k hk items s

theorem C5_session_acquires_witness :
    0 < 300 ∧
    ((production_scrape_k 3 300 errItems 0).state.acquires =
      (errItems.length - 0) / 300 + 1 ∧
    (production_scrape_k 3 300 errItems 0).state.quits =
      (errItems.length - 0) / 300) :=
  ⟨by norm_num, C5_session_acquires 3 300 (by norm_num) errItems 0⟩

/-- The reading of "the backoff range strictly grows from each retry to
the next" used to refute C6. -/
def strictlyWidens (p q : ℚ × ℚ) : Prop :=
  p.1 ≤ q.1 ∧ p.2 ≤ q.2 ∧ p ≠ q

/-- C6: the claim that the backoff windows strictly grow over the
attempt sequence is false on the code: a 3-retry exhaustion sleeps the
two windows (5, 10) and (5, 10) — identical, so no strict growth
anywhere in the sequence (the constant range comes from
random.uniform(5, 10) at production_scraper.py lines 51 and 59). -/
theorem C6_counterexample :
    (scrape_track_with_retry 3 (fun _ => AttemptOutcome.ok errorTrack)
      "t2" "Song C" 1).backoffs = [((5 : ℚ), 10), ((5 : ℚ), 10)] ∧
    ¬ List.Chain' strictlyWidens [((5 : ℚ), 10), ((5 : ℚ), 10)] := by
  constructor
  · rw [retry_const_marked 3 errorTrack "t2" "Song C" 1 (by norm_num) (by decide)]
    rfl
  · intro hch
    simp [List.chain'_cons, strictlyWidens] at hch

/-- C6 (amended): every backoff window slept between retry attempts is
the constant (5, 10) — so consecutive windows are equal, satisfying
"at least the earlier one" but never strictly growing — and the window
sits above and is wider than the steady-state base delay range (2, 5)
of the rate controller. -/
theorem C6_backoff_windows (m : Nat) (ex : Nat → AttemptOutcome)
    (tid tn : String) (a : Nat) :
    (∀ p ∈ (scrape_track_with_retry m ex tid tn a).backoffs, p = ((5 : ℚ), 10)) ∧
    (∀ p q, p ∈ (scrape_track_with_retry m ex tid tn a).backoffs →
      q ∈ (scrape_track_with_retry m ex tid tn a).backoffs → p = q) ∧
    ((2 : ℚ) < 5 ∧ (5 : ℚ) < 10 ∧ (5 : ℚ) - 2 < 10 - 5) := by
  refine ⟨?_, ?_, by norm_num⟩
  · intro p hp
    exact retry_backoffs_mem m ex tid tn a p hp
  · intro p q hp hq
    rw [retry_backoffs_mem m ex tid tn a p hp, retry_backoffs_mem m ex tid tn a q hq]

theorem C6_backoff_windows_witness :
    ((5 : ℚ), (10 : ℚ)) ∈
      (scrape_track_with_retry 3 (fun _ => AttemptOutcome.exn "x") "t" "n" 1).backoffs ∧
    ((5 : ℚ), (10 : ℚ)) = ((5 : ℚ), 10) ∧
    ((2 : ℚ) < 5 ∧ (5 : ℚ) < 10 ∧ (5 : ℚ) - 2 < 10 - 5) := by
  have hmem : ((5 : ℚ), (10 : ℚ)) ∈
      (scrape_track_with_retry 3 (fun _ => AttemptOutcome.exn "x") "t" "n" 1).backoffs := by
    rw [retry_all_exn 3 (fun _ => AttemptOutcome.exn "x") "t" "n" 1
      (by norm_num) (fun n => rfl)]
    simp
  exact ⟨hmem,
    (C6_backoff_windows 3 (fun _ => AttemptOutcome.exn "x") "t" "n" 1).1 _ hmem,
    (C6_backoff_windows 3 (fun _ => AttemptOutcome.exn "x") "t" "n" 1).2.2⟩

/-- C7: a run with resume index start_index produces exactly one
ResultRecord per row at position at least start_index, in source-list
order — one record per processed row, none for the skipped prefix. -/
theorem C7_resume_window (m k : Nat)
    (items : List (WorkItem × (Nat → AttemptOutcome))) (s : Nat) :
    (production_scrape_k m k items s).state.results =
      (items.drop s).map (itemRecord m) :=
  production_results m k items s

/-- C8: the claim that the partial ledger is saved on every exit path is
false on the code in the empty case: a run interrupted before any item
completed quits the driver but writes no ledger file at all, because
save_progress (spotify_scraper.py line 197) skips the write whenever
self.results is empty. -/
theorem C8_counterexample :
    (main_run 3 300 [] 0 (ExitKind.interrupted 0)).finalQuit = true ∧
    (main_run 3 300 [] 0 (ExitKind.interrupted 0)).state.results = [] ∧
    (main_run 3 300 [] 0 (ExitKind.interrupted 0)).state.saves = [] :=
  ⟨rfl, rfl, rfl⟩

/-- C8 (amended): on every exit path of main — normal completion,
unexpected exception, operator interruption — the driver is quit before
the process ends, and whenever at least one result has been accumulated
the last file written holds exactly the results accumulated so far
(save_progress skips the write only when the results list is empty). -/
theorem C8_exit_paths (m k : Nat)
    (items : List (WorkItem × (Nat → AttemptOutcome))) (s : Nat) (ek : ExitKind) :
    (main_run m k items s ek).finalQuit = true ∧
    ((main_run m k items s ek).state.results ≠ [] →
      ∃ fn, (main_run m k items s ek).state.saves.getLast? =
        some (fn, (main_run m k items s ek).state.results)) :=
  main_exit_saves m k items s ek

/-- A one-row work list whose extraction always returns a clean dict. -/
def cleanItems : List (WorkItem × (Nat → AttemptOutcome)) :=
  [({ track_id := "t9", track_name := "Song B" }, fun _ => AttemptOutcome.ok cleanTrack)]

theorem C8_exit_paths_witness :
    (main_run 3 300 cleanItems 0 ExitKind.completed).state.results ≠ [] ∧
    (main_run 3 300 cleanItems 0 ExitKind.completed).finalQuit = true ∧
    ∃ fn, (main_run 3 300 cleanItems 0 ExitKind.completed).state.saves.getLast? =
      some (fn, (main_run 3 300 cleanItems 0 ExitKind.completed).state.results) := by
  have hres : (main_run 3 300 cleanItems 0 ExitKind.completed).state.results =
      [cleanTrack] := by
    show (production_scrape_k 3 300 cleanItems 0).state.results = _
    rw [production_results, List.drop_zero]
    show [(scrape_track_with_retry 3 (fun _ => AttemptOutcome.ok cleanTrack)
      "t9" "Song B" 1).result] = [cleanTrack]
    rw [retry_ok_return 3 (fun _ => AttemptOutcome.ok cleanTrack) "t9" "Song B" 1
      cleanTrack rfl (fun hc => absurd hc.1 (by decide))]
  have h := C8_exit_paths 3 300 cleanItems 0 ExitKind.completed
  exact ⟨by rw [hres]; simp, h.1, h.2 (by rw [hres]; simp)⟩

/-- C9: calculate_eta returns the string "Unknown" when completed = 0,
and for positive completed count and positive elapsed time both of its
divisions are well-defined, so a formatted ETA is produced — the
zero-completed guard keeps the division branch unreachable in the
degenerate case. -/
theorem C9_eta_guard :
    (∀ (total : Nat) (e : ℚ), calculate_eta 0 total e = some "Unknown") ∧
    (∀ (completed total : Nat) (e : ℚ), 0 < completed → 0 < e →
      (calculate_eta completed total e).isSome = true) := by
  constructor
  · intro total e
    rfl
  · intro c t e hc he
    have hrate : (0 : ℚ) < (c : ℚ) / e := div_pos (by exact_mod_cast hc) he
    unfold calculate_eta qdivChecked
    rw [if_neg (by omega), if_neg he.ne']
    dsimp only
    rw [if_neg hrate.ne']
    rfl

theorem C9_eta_guard_witness :
    0 < 5 ∧ (0 : ℚ) < 100 ∧ (calculate_eta 5 10 100).isSome = true :=
  ⟨by norm_num, by norm_num, C9_eta_guard.2 5 10 100 (by norm_num) (by norm_num)⟩

/-- C10: a row of the (possibly truncated) input whose lyrics cell is
present and is neither placeholder value passes through
add_lyrics_to_csv unchanged, and no extraction is attempted for its
index — only rows with missing or placeholder lyrics are touched. -/
theorem C10_lyrics_frame (extract : Nat → String) (ptime : Nat → ℚ)
    (rows : List CsvRow) (start_index : Nat) (max_tracks : Option Nat)
    (i : Nat) (row : CsvRow) (v : String)
    (hrow : (truncateRows rows start_index max_tracks)[i]? = some row)
    (hv : row.lyrics = some v)
    (hv1 : v ≠ "Skipped for speed") (hv2 : v ≠ "No lyrics available") :
    ((add_lyrics_to_csv extract ptime rows start_index max_tracks).1)[i]? = some row ∧
    i ∉ (add_lyrics_to_csv extract ptime rows start_index max_tracks).2 := by
  have hex : lyricsAlreadyExist row = true := by
    unfold lyricsAlreadyExist
    rw [hv]
    simp [hv1, hv2]
  have h := addLyricsLoop_unchanged extract ptime
    (truncateRows rows start_index max_tracks) 0 start_index i row hrow hex
  unfold add_lyrics_to_csv
  refine ⟨h.1, ?_⟩
  have h2 := h.2
  rwa [Nat.zero_add] at h2

/-- A concrete CSV row that already has real lyrics. -/
def lyricRow : CsvRow :=
  { track_id := "a1", track_name := "Song D"
    lyrics := some "real lyrics here", lyrics_processing_time := none }

theorem C10_lyrics_frame_witness :
    ((add_lyrics_to_csv (fun _ => "X") (fun _ => 0) [lyricRow] 0 none).1)[0]? =
      some lyricRow ∧
    0 ∉ (add_lyrics_to_csv (fun _ => "X") (fun _ => 0) [lyricRow] 0 none).2 :=
  C10_lyrics_frame (fun _ => "X") (fun _ => 0) [lyricRow] 0 none 0 lyricRow
    "real lyrics here" (by simp [truncateRows]) rfl (by decide) (by decide)
